import Mathlib

/-!
Verification of `src/master.py` of the clinvar repository: a shallow
embedding of the driver script (argument validation, FTP freshness
checking, conditional download enqueueing, and construction of the main
sequential pipeline job), together with theorems settling the spec's
claims about it.

Modelling conventions:
- The local filesystem is a map from path to `some mtime` (seconds since
  the epoch, as a `Nat`) when a regular file exists at that path, and
  `none` otherwise.  `os.path.isfile` and `os.path.getmtime` are read-only
  queries of this map.
- The remote FTP state is a map from (host, path) to `some t` when the
  MDTM query succeeds and parses to epoch-seconds `t`, and `none` when the
  query fails for any reason (connection error, timeout, protocol error,
  unparsable response).  All Python exceptions raised inside
  `get_remote_file_changed_time` are absorbed by its `except` clause, so
  the embedding of the function is total.
- `print` calls are modelled (coarsely) as lines appended to a console
  log; they bear on no claim except as the allowed side channel of C7.
- Executing enqueued or job commands is a separate, later stage: the
  driver embedding only *constructs* the download queue and the job, and
  returns them in `Except`; an `Except.error` result models the process
  exiting (with the given error) before any pipeline command runs.
-/

namespace ClinvarMaster

/-- Local filesystem state: `fs p = some m` means a regular file exists at
path `p` with modification time `m` (seconds since the epoch). -/
abbrev FS := String → Option Nat

/-- Remote FTP state: `remote host path = some t` means the `MDTM` query for
`path` on `host` succeeds and parses to epoch-seconds `t`; `none` means the
query fails (connection error, timeout, protocol error, bad response). -/
abbrev Remote := String → String → Option Nat

/-- `os.path.isfile` on the modelled filesystem. -/
def isfile (fs : FS) (p : String) : Bool :=
  (fs p).isSome

/-- `os.path.getmtime` on the modelled filesystem (meaningful only when
`isfile` holds; the source only calls it under that guard, master.py:61). -/
def getmtime (fs : FS) (p : String) : Nat :=
  (fs p).getD 0

/-- The FTP connection opened by `get_remote_file_changed_time`
(master.py:49): `ftplib.FTP(ftp_host, timeout=3)`. -/
structure FtpConn where
  host : String
  timeoutSeconds : Nat
deriving Repr, DecidableEq

/-- master.py:49 — the connection is always opened with `timeout=3`. -/
def ftpConn (ftp_host : String) : FtpConn :=
  { host := ftp_host, timeoutSeconds := 3 }

/-- The MDTM query issued over a connection (master.py:50-53): login, send
`MDTM ftp_path`, parse the response with `%Y%m%d%H%M%S` and convert to
epoch seconds.  `none` models any exception along the way. -/
def ftpQuery (remote : Remote) (conn : FtpConn) (ftp_path : String) : Option Nat :=
  remote conn.host ftp_path

/-- master.py:44-56.  Returns the remote modification time in seconds since
the epoch; on any exception, prints an error and returns 0.  The `except`
clause covers the whole body, so the function never raises to its caller
(modelled by this definition being total). -/
def get_remote_file_changed_time (remote : Remote) (ftp_host ftp_path : String) : Nat :=
  match ftpQuery remote (ftpConn ftp_host) ftp_path with
  | some t => t
  | none => 0

/-- Driver-visible mutable state threaded through `download_if_changed`:
the filesystem, the parallel download queue built by
`job_runner.add_parallel` (as a list of command strings), and the console
log. -/
structure DriverState where
  fs : FS
  parallelQueue : List String
  console : List String

/-- The wget command enqueued by `download_if_changed` (master.py:62-64):
`"wget ftp://%s/%s -O OUT:%s" % (ftp_host, ftp_path, local_path)` after
substituting the ftp address. -/
def wget_command (ftp_host ftp_path local_path : String) : String :=
  "wget ftp://" ++ ftp_host ++ "/" ++ ftp_path ++ " -O OUT:" ++ local_path

/-- master.py:59-66.  Queries the remote changed time, computes the local
effective time (`getmtime` if the file exists, else 0), and enqueues a wget
download on the parallel queue iff the remote time is strictly greater;
otherwise prints an up-to-date message. -/
def download_if_changed (remote : Remote) (st : DriverState)
    (local_path ftp_host ftp_path : String) : DriverState :=
  let remote_changed_time := get_remote_file_changed_time remote ftp_host ftp_path
  let local_changed_time := if isfile st.fs local_path then getmtime st.fs local_path else 0
  if remote_changed_time > local_changed_time then
    { st with parallelQueue :=
        st.parallelQueue ++ [wget_command ftp_host ftp_path local_path] }
  else
    { st with console :=
        st.console ++ ["Local copy of ftp://" ++ ftp_host ++ "/" ++ ftp_path ++ " is up to date."] }

/-- Remote state for the C1 counterexample: every MDTM query succeeds and
parses to exactly the epoch (MDTM response `19700101000000`). -/
def epochRemote : Remote := fun _ _ => some 0

/-- Filesystem for the C1 counterexample: no local file exists. -/
def emptyFS : FS := fun _ => none

/-- The effective local timestamp used by `download_if_changed`
(master.py:61): the file's mtime if it exists, else 0. -/
def local_effective_time (fs : FS) (local_path : String) : Nat :=
  if isfile fs local_path then getmtime fs local_path else 0

theorem download_if_changed_queue (remote : Remote) (st : DriverState)
    (local_path ftp_host ftp_path : String) :
    (download_if_changed remote st local_path ftp_host ftp_path).parallelQueue =
      if get_remote_file_changed_time remote ftp_host ftp_path
          > local_effective_time st.fs local_path
      then st.parallelQueue ++ [wget_command ftp_host ftp_path local_path]
      else st.parallelQueue := by
  unfold download_if_changed local_effective_time
  split <;> split <;> rename_i h <;> simp [h]

theorem get_remote_eq_of_some (remote : Remote) (ftp_host ftp_path : String) (t : Nat)
    (hok : remote ftp_host ftp_path = some t) :
    get_remote_file_changed_time remote ftp_host ftp_path = t := by
  simp [get_remote_file_changed_time, ftpQuery, ftpConn, hok]

theorem download_if_changed_fs_eq (remote : Remote) (st : DriverState)
    (local_path ftp_host ftp_path : String) :
    (download_if_changed remote st local_path ftp_host ftp_path).fs = st.fs := by
  unfold download_if_changed
  split <;> dsimp only <;> split <;> rfl

end ClinvarMaster

namespace ClinvarMaster

/-- Claim C1 (counterexample): the claim asserts that when the local file is
absent and the remote query succeeds, a download is always enqueued.  At
the concrete input where the MDTM query succeeds and parses to exactly the
epoch (t = 0) and the local file is absent (effective time 0), the code
compares 0 > 0 and enqueues nothing. -/
theorem download_if_changed_absent_local_no_enqueue_at_epoch :
    epochRemote ("ftp.ncbi.nlm.nih.gov") ("/pub/clinvar/xml/ClinVarFullRelease_00-latest.xml.gz")
        = some 0 ∧
    isfile emptyFS ("ClinVarFullRelease_00-latest.xml.gz") = false ∧
    (download_if_changed epochRemote ⟨emptyFS, [], []⟩
        ("ClinVarFullRelease_00-latest.xml.gz") ("ftp.ncbi.nlm.nih.gov")
        ("/pub/clinvar/xml/ClinVarFullRelease_00-latest.xml.gz")).parallelQueue = [] := by
  refine ⟨rfl, rfl, ?_⟩
  rfl

/-- Claim C1 (amended): a download command is enqueued iff the resolved
remote timestamp is strictly greater than the local effective timestamp
(mtime if the file exists, else 0); in particular, when the local file is
absent and the remote query succeeds with a strictly post-epoch timestamp
a download is enqueued, and when the remote timestamp is older than an
existing local file no download is enqueued. -/
theorem download_if_changed_spec (remote : Remote) (fs : FS) (q c : List String)
    (local_path ftp_host ftp_path : String) :
    ((download_if_changed remote ⟨fs, q, c⟩ local_path ftp_host ftp_path).parallelQueue
        = q ++ [wget_command ftp_host ftp_path local_path]
      ↔ get_remote_file_changed_time remote ftp_host ftp_path
          > local_effective_time fs local_path) ∧
    ((fs local_path = none ∧ ∃ t, remote ftp_host ftp_path = some t ∧ 0 < t) →
      (download_if_changed remote ⟨fs, q, c⟩ local_path ftp_host ftp_path).parallelQueue
        = q ++ [wget_command ftp_host ftp_path local_path]) ∧
    ((∃ m, fs local_path = some m ∧
        get_remote_file_changed_time remote ftp_host ftp_path < m) →
      (download_if_changed remote ⟨fs, q, c⟩ local_path ftp_host ftp_path).parallelQueue
        = q) := by
  have hmain :
      (download_if_changed remote ⟨fs, q, c⟩ local_path ftp_host ftp_path).parallelQueue
          = q ++ [wget_command ftp_host ftp_path local_path]
        ↔ get_remote_file_changed_time remote ftp_host ftp_path
            > local_effective_time fs local_path := by
    rw [download_if_changed_queue]
    by_cases h : get_remote_file_changed_time remote ftp_host ftp_path
        > local_effective_time (⟨fs, q, c⟩ : DriverState).fs local_path
    · rw [if_pos h]
      exact ⟨fun _ => h, fun _ => rfl⟩
    · rw [if_neg h]
      constructor
      · intro heq
        have := congrArg List.length heq
        simp at this
      · intro hcontra
        exact absurd hcontra h
  refine ⟨hmain, ?_, ?_⟩
  · rintro ⟨habsent, t, hok, hpos⟩
    apply hmain.mpr
    have hfile : isfile fs local_path = false := by
      simp [isfile, habsent]
    rw [get_remote_eq_of_some remote ftp_host ftp_path t hok]
    rw [local_effective_time, hfile]
    simpa using hpos
  · rintro ⟨m, hm, hlt⟩
    rw [download_if_changed_queue]
    have hfile : isfile fs local_path = true := by
      simp [isfile, hm]
    have hmt : getmtime fs local_path = m := by
      simp [getmtime, hm]
    rw [if_neg]
    rw [local_effective_time]
    simp only [hfile, if_pos, hmt]
    omega

/-- Remote state for witnesses: queries succeed with timestamp 100. -/
def t100Remote : Remote := fun _ _ => some 100

/-- Filesystem for witnesses: a single file `present.gz` with mtime 500. -/
def mtime500FS : FS := fun p => if p = "present.gz" then some 500 else none

/-- Witness for Claim C1 (amended), at concrete inputs: with the file
absent and a successful remote query at t = 100, a download is enqueued;
with the file present at mtime 500 and remote t = 100 (older), nothing is
enqueued. -/
theorem download_if_changed_spec_witness :
    (download_if_changed t100Remote ⟨emptyFS, [], []⟩ ("data.gz") ("h") ("p")).parallelQueue
        = [] ++ [wget_command ("h") ("p") ("data.gz")] ∧
    (download_if_changed t100Remote ⟨mtime500FS, [], []⟩ ("present.gz") ("h") ("p")).parallelQueue
        = [] :=
  ⟨(download_if_changed_spec t100Remote emptyFS [] [] ("data.gz") ("h") ("p")).2.1
      ⟨rfl, 100, rfl, by decide⟩,
   (download_if_changed_spec t100Remote mtime500FS [] [] ("present.gz") ("h") ("p")).2.2
      ⟨500, rfl, by decide⟩⟩

/-- Claim C2: if the remote MDTM query fails for any reason,
`get_remote_file_changed_time` returns the sentinel 0 (its `except` clause
absorbs every exception, so nothing propagates — the embedding is total),
and `download_if_changed` then enqueues nothing: the parallel queue is
unchanged. -/
theorem remote_query_failure_sentinel_no_action (remote : Remote) (fs : FS)
    (q c : List String) (local_path ftp_host ftp_path : String)
    (hfail : remote ftp_host ftp_path = none) :
    get_remote_file_changed_time remote ftp_host ftp_path = 0 ∧
    (download_if_changed remote ⟨fs, q, c⟩ local_path ftp_host ftp_path).parallelQueue = q := by
  have h0 : get_remote_file_changed_time remote ftp_host ftp_path = 0 := by
    simp [get_remote_file_changed_time, ftpQuery, ftpConn, hfail]
  refine ⟨h0, ?_⟩
  rw [download_if_changed_queue, h0]
  rw [if_neg (by omega)]

/-- Remote state for the C2 witness: every query fails. -/
def failRemote : Remote := fun _ _ => none

/-- Witness for Claim C2 at a concrete input: a failing remote query yields
the 0 sentinel and leaves the download queue empty. -/
theorem remote_query_failure_sentinel_no_action_witness :
    get_remote_file_changed_time failRemote ("h") ("p") = 0 ∧
    (download_if_changed failRemote ⟨mtime500FS, [], []⟩ ("present.gz") ("h") ("p")).parallelQueue
        = [] :=
  remote_query_failure_sentinel_no_action failRemote mtime500FS [] [] ("present.gz") ("h") ("p") rfl

/-- One pipeline command descriptor, as built by `pypez.Job.add`: the
command text plus its declared input and output filenames.  The lists
collect the `IN:`/`OUT:` markers embedded in the command string together
with the explicit `input_filenames`/`output_filenames` keyword arguments
from the corresponding `job.add` call. -/
structure Step where
  cmd : String
  inputs : List String
  outputs : List String
deriving Repr, DecidableEq

/-- A sequential pypez Job: an ordered list of steps. -/
abbrev Job := List Step

/-- `job.add(...)` appends a step at the end of the job; steps are never
reordered or removed. -/
def jobAdd (j : Job) (s : Step) : Job :=
  j ++ [s]

/-- master.py:98 — parse the ClinVar XML. -/
def parse_clinvar_step (clinvar_xml assembly : String) : Step :=
  { cmd := "python -u IN:parse_clinvar_xml.py -x IN:" ++ clinvar_xml
      ++ " -o OUT:clinvar_table_raw.tsv -a " ++ assembly,
    inputs := ["parse_clinvar_xml.py", clinvar_xml],
    outputs := ["clinvar_table_raw.tsv"] }

/-- master.py:102 — fetch the normalization script (no IN:/OUT: markers). -/
def wget_normalize_step : Step :=
  { cmd := "wget -N https://raw.githubusercontent.com/ericminikel/minimal_representation/master/normalize.py",
    inputs := [],
    outputs := [] }

/-- master.py:103 — run the normalization script. -/
def normalize_step (reference_genome : String) : Step :=
  { cmd := "python -u normalize.py -R IN:" ++ reference_genome
      ++ " < IN:clinvar_table_raw.tsv > OUT:clinvar_table_normalized.tsv",
    inputs := [reference_genome, "clinvar_table_raw.tsv"],
    outputs := ["clinvar_table_normalized.tsv"] }

/-- master.py:106 — join with the variant summary table
(`input_filenames=['clinvar_table_normalized.tsv']`,
`output_filenames=['clinvar_combined.tsv']`). -/
def join_step (variant_summary_table : String) : Step :=
  { cmd := "Rscript IN:join_data.R IN:" ++ variant_summary_table,
    inputs := ["join_data.R", variant_summary_table, "clinvar_table_normalized.tsv"],
    outputs := ["clinvar_combined.tsv"] }

/-- master.py:109-111 — sort by genomic coordinates. -/
def sort_step : Step :=
  { cmd := "(cat IN:clinvar_combined.tsv | head -1 > OUT:clinvar_combined_sorted.tsv ) && "
      ++ "(cat IN:clinvar_combined.tsv | tail -n +2 | egrep -v \"^[XYM]\" | sort -k1,1n -k2,2n -k3,3 -k4,4 >> OUT:clinvar_combined_sorted.tsv ) && "
      ++ "(cat IN:clinvar_combined.tsv | tail -n +2 | egrep \"^[XYM]\" | sort -k1,1 -k2,2n -k3,3 -k4,4 >> OUT:clinvar_combined_sorted.tsv )",
    inputs := ["clinvar_combined.tsv"],
    outputs := ["clinvar_combined_sorted.tsv"] }

/-- master.py:114 — deduplicate and compress. -/
def dedup_step : Step :=
  { cmd := "python -u IN:dedup_clinvar.py < IN:clinvar_combined_sorted.tsv | tee clinvar.tsv | bgzip -c > OUT:clinvar.tsv.gz",
    inputs := ["dedup_clinvar.py", "clinvar_combined_sorted.tsv"],
    outputs := ["clinvar.tsv.gz"] }

/-- master.py:115 — tabix-index the table
(`output_filenames=["clinvar.tsv.gz.tbi"]`). -/
def tabix_tsv_step : Step :=
  { cmd := "tabix -S 1 -s 1 -b 2 -e 2 IN:clinvar.tsv.gz",
    inputs := ["clinvar.tsv.gz"],
    outputs := ["clinvar.tsv.gz.tbi"] }

/-- master.py:116 — copy the table and its index to the parent directory. -/
def cp_tsv_step : Step :=
  { cmd := "cp IN:clinvar.tsv.gz IN:clinvar.tsv.gz.tbi ../",
    inputs := ["clinvar.tsv.gz", "clinvar.tsv.gz.tbi"],
    outputs := ["../clinvar.tsv", "../clinvar.tsv.gz", "../clinvar.tsv.gz.tbi"] }

/-- master.py:119 — derive the compressed VCF. -/
def vcf_step : Step :=
  { cmd := "python -u IN:clinvar_table_to_vcf.py IN:clinvar.tsv | bgzip -c > OUT:clinvar.vcf.gz",
    inputs := ["clinvar_table_to_vcf.py", "clinvar.tsv"],
    outputs := ["clinvar.vcf.gz"] }

/-- master.py:120 — tabix-index the VCF. -/
def tabix_vcf_step : Step :=
  { cmd := "tabix IN:clinvar.vcf.gz",
    inputs := ["clinvar.vcf.gz"],
    outputs := ["clinvar.vcf.gz.tbi"] }

/-- master.py:121 — copy the VCF and its index to the parent directory. -/
def cp_vcf_step : Step :=
  { cmd := "cp IN:clinvar.vcf.gz IN:clinvar.vcf.gz.tbi ../",
    inputs := ["clinvar.vcf.gz", "clinvar.vcf.gz.tbi"],
    outputs := ["../clinvar.vcf.gz", "../clinvar.vcf.gz.tbi"] }

/-- `os.path.basename`: the part of the path after the last slash. -/
def basename (p : String) : String :=
  (p.splitOn ("/")).getLastD p

/-- master.py:125 — the normalized ExAC vcf filename:
`os.path.basename(args.exac_sites_vcf).split('.vcf')[0] + ".normalized.vcf.gz"`. -/
def normalized_vcf_name (exac_sites_vcf : String) : String :=
  ((basename exac_sites_vcf).splitOn (".vcf")).headD (basename exac_sites_vcf)
    ++ ".normalized.vcf.gz"

/-- master.py:126 — decompose and normalize the ExAC sites vcf. -/
def vt_normalize_step (exac_sites_vcf reference_genome : String) : Step :=
  { cmd := "vt decompose -s IN:" ++ exac_sites_vcf ++ " | vt normalize -r IN:"
      ++ reference_genome ++ " - | bgzip -c > OUT:" ++ normalized_vcf_name exac_sites_vcf,
    inputs := [exac_sites_vcf, reference_genome],
    outputs := [normalized_vcf_name exac_sites_vcf] }

/-- master.py:127 — tabix-index the normalized ExAC vcf. -/
def tabix_normalized_step (exac_sites_vcf : String) : Step :=
  { cmd := "tabix IN:" ++ normalized_vcf_name exac_sites_vcf,
    inputs := [normalized_vcf_name exac_sites_vcf],
    outputs := [normalized_vcf_name exac_sites_vcf ++ ".tbi"] }

/-- master.py:128 — build the ExAC-augmented table. -/
def add_exac_fields_step (exac_sites_vcf : String) : Step :=
  { cmd := "python -u IN:add_exac_fields.py -i IN:clinvar.tsv -e IN:"
      ++ normalized_vcf_name exac_sites_vcf
      ++ " | bgzip -c > OUT:clinvar_with_exac.tsv.gz",
    inputs := ["add_exac_fields.py", "clinvar.tsv", normalized_vcf_name exac_sites_vcf],
    outputs := ["clinvar_with_exac.tsv.gz"] }

/-- master.py:129 — tabix-index the ExAC-augmented table. -/
def tabix_exac_step : Step :=
  { cmd := "tabix -S 1 -s 1 -b 2 -e 2 IN:clinvar_with_exac.tsv.gz",
    inputs := ["clinvar_with_exac.tsv.gz"],
    outputs := ["clinvar_with_exac.tsv.gz.tbi"] }

/-- master.py:130 — copy the ExAC-augmented table and index up. -/
def cp_exac_step : Step :=
  { cmd := "cp IN:clinvar_with_exac.tsv.gz IN:clinvar_with_exac.tsv.gz.tbi ../",
    inputs := ["clinvar_with_exac.tsv.gz", "clinvar_with_exac.tsv.gz.tbi"],
    outputs := ["../clinvar_with_exac.tsv.gz", "../clinvar_with_exac.tsv.gz.tbi"] }

/-- master.py:133 — example VCF rows. -/
def example_vcf_step : Step :=
  { cmd := "gunzip -c IN:clinvar.vcf.gz | head -n 750 > OUT:../clinvar_example_750_rows.vcf",
    inputs := ["clinvar.vcf.gz"],
    outputs := ["../clinvar_example_750_rows.vcf"] }

/-- master.py:134 — example table rows. -/
def example_tsv_step : Step :=
  { cmd := "gunzip -c IN:clinvar.tsv.gz | head -n 750 > OUT:../clinvar_example_750_rows.tsv",
    inputs := ["clinvar.tsv.gz"],
    outputs := ["../clinvar_example_750_rows.tsv"] }

/-- master.py:135 — example ExAC-augmented table rows (added
unconditionally, even when no ExAC step produced its input). -/
def example_exac_step : Step :=
  { cmd := "gunzip -c IN:clinvar_with_exac.tsv.gz | head -n 750 > OUT:../clinvar_with_exac_example_750_rows.tsv",
    inputs := ["clinvar_with_exac.tsv.gz"],
    outputs := ["../clinvar_with_exac_example_750_rows.tsv"] }

/-- master.py:140-149 — the statistics summary
(`input_filenames=["clinvar.tsv.gz", "master.py"]`; the one `OUT:` marker
names clinvar_stats.txt; the shell text, a multi-line echo/loop pipeline
over `gunzip -c IN:clinvar.tsv.gz`, is abbreviated here — no claim depends
on its interior). -/
def stats_step : Step :=
  { cmd := "echo Columns: ... > OUT:clinvar_stats.txt && for i in 8 9 10 11 12 13 19 20 21 22 23; do gunzip -c IN:clinvar.tsv.gz | cut -f $i | sort | uniq -c >> OUT:clinvar_stats.txt ; done",
    inputs := ["clinvar.tsv.gz", "master.py"],
    outputs := ["clinvar_stats.txt"] }

/-- master.py:151 — copy the statistics summary up. -/
def cp_stats_step : Step :=
  { cmd := "cp IN:clinvar_stats.txt OUT:../clinvar_stats.txt",
    inputs := ["clinvar_stats.txt"],
    outputs := ["../clinvar_stats.txt"] }

/-- Command-line configuration (master.py:23-29) after parsing. -/
structure Args where
  reference_genome : String
  assembly : String
  exac_sites_vcf : Option String
  clinvar_xml : Option String
  clinvar_variant_summary_table : Option String

/-- master.py:95-151 — the driver builds the main sequential job by
repeated `job.add`, with the five ExAC steps added only when
`args.exac_sites_vcf` is set (master.py:124-130).  `clinvar_xml` and
`variant_summary_table` are the resolved local filenames. -/
def buildMainJob (clinvar_xml variant_summary_table : String) (args : Args) : Job :=
  let j := jobAdd ([] : Job) (parse_clinvar_step clinvar_xml args.assembly)
  let j := jobAdd j wget_normalize_step
  let j := jobAdd j (normalize_step args.reference_genome)
  let j := jobAdd j (join_step variant_summary_table)
  let j := jobAdd j sort_step
  let j := jobAdd j dedup_step
  let j := jobAdd j tabix_tsv_step
  let j := jobAdd j cp_tsv_step
  let j := jobAdd j vcf_step
  let j := jobAdd j tabix_vcf_step
  let j := jobAdd j cp_vcf_step
  let j := match args.exac_sites_vcf with
    | some e =>
        jobAdd (jobAdd (jobAdd (jobAdd (jobAdd j
          (vt_normalize_step e args.reference_genome))
          (tabix_normalized_step e))
          (add_exac_fields_step e))
          tabix_exac_step)
          cp_exac_step
    | none => j
  let j := jobAdd j example_vcf_step
  let j := jobAdd j example_tsv_step
  let j := jobAdd j example_exac_step
  let j := jobAdd j stats_step
  jobAdd j cp_stats_step

/-- The eleven steps added before the conditional ExAC block
(master.py:98-121), in order. -/
def mainStepsCore (clinvar_xml variant_summary_table : String) (args : Args) : List Step :=
  [parse_clinvar_step clinvar_xml args.assembly,
   wget_normalize_step,
   normalize_step args.reference_genome,
   join_step variant_summary_table,
   sort_step,
   dedup_step,
   tabix_tsv_step,
   cp_tsv_step,
   vcf_step,
   tabix_vcf_step,
   cp_vcf_step]

/-- The five ExAC-augmented-table steps (master.py:126-130), in order. -/
def exacSteps (exac_sites_vcf reference_genome : String) : List Step :=
  [vt_normalize_step exac_sites_vcf reference_genome,
   tabix_normalized_step exac_sites_vcf,
   add_exac_fields_step exac_sites_vcf,
   tabix_exac_step,
   cp_exac_step]

/-- The five unconditional trailing steps (master.py:133-151), in order. -/
def mainStepsTail : List Step :=
  [example_vcf_step,
   example_tsv_step,
   example_exac_step,
   stats_step,
   cp_stats_step]

/-- Execution environment for the module-level checks (master.py:14-21):
which Python modules are importable and which executables
`distutils.spawn.find_executable` can locate. -/
structure Env where
  importable : String → Bool
  findExecutable : String → Bool

/-- The modules imported at master.py:15-17 (in import order). -/
def python_modules : List String :=
  ["pypez", "pysam", "pandas"]

/-- The executables asserted to exist at master.py:20-21 (in loop order). -/
def required_executables : List String :=
  ["wget", "Rscript", "tabix", "vt"]

/-- master.py:14-19 — the `try: import ...` fails on the first module that
is not importable. -/
def findMissingModule (env : Env) : Option String :=
  python_modules.find? (fun m => !(env.importable m))

/-- master.py:20-21 — the assert loop fails on the first executable not
found on the path. -/
def findMissingExecutable (env : Env) : Option String :=
  required_executables.find? (fun e => !(env.findExecutable e))

/-- The ways the script exits before running any pipeline command:
`sys.exit(message)` on a missing module (exit status 1, master.py:19), an
`AssertionError` on a missing executable (exit status 1, master.py:21),
and `p.error(message)` on a bad argument (argparse exit status 2). -/
inductive ExitErr where
  | moduleNotInstalled (m : String)
  | executableNotFound (e : String)
  | argError (msg : String)
deriving Repr, DecidableEq

/-- The process exit status carried by each early-exit path; all are
non-zero. -/
def ExitErr.code : ExitErr → Nat
  | .moduleNotInstalled _ => 1
  | .executableNotFound _ => 1
  | .argError _ => 2

/-- Python `str.endswith`: does `s` end with `post`?  (Embedded via the
character lists so that it evaluates on concrete inputs.) -/
def endswith (s post : String) : Bool :=
  post.data.isSuffixOf s.data

/-- master.py:34-42 — validation of the reference genome and the optional
ExAC sites vcf (file and companion `.tbi` index), in source order.
Returns the first `p.error` hit, if any. -/
def checkInputFiles (args : Args) (fs : FS) : Option ExitErr :=
  if !(isfile fs args.reference_genome) then
    some (.argError ("genome reference: file not found: " ++ args.reference_genome))
  else
    match args.exac_sites_vcf with
    | some e =>
        if !(isfile fs e) then
          some (.argError ("ExAC sites vcf: file not found: " ++ e))
        else if !(isfile fs (e ++ ".tbi")) then
          some (.argError ("ExAC sites vcf: tabix index not found: " ++ e ++ ".tbi"))
        else none
    | none => none

/-- master.py:71-80 — resolve the ClinVar XML: a supplied `-X` file must
exist and end in `.gz`; otherwise the default name is used and a freshness
check may enqueue a download. -/
def resolveClinvarXml (args : Args) (remote : Remote) (st : DriverState) :
    Except ExitErr (String × DriverState) :=
  match args.clinvar_xml with
  | some x =>
      if !(isfile st.fs x) then
        .error (.argError ("ClinVar XML specified but not found: " ++ x))
      else if !(endswith x (".gz")) then
        .error (.argError ("ClinVar XML expected to be gzipped: " ++ x))
      else .ok (x, st)
  | none =>
      .ok ("ClinVarFullRelease_00-latest.xml.gz",
        download_if_changed remote st ("ClinVarFullRelease_00-latest.xml.gz")
          ("ftp.ncbi.nlm.nih.gov") ("/pub/clinvar/xml/ClinVarFullRelease_00-latest.xml.gz"))

/-- master.py:82-91 — resolve the variant summary table: a supplied `-S`
file must exist and end in `.gz`; otherwise the default name is used and a
freshness check may enqueue a download. -/
def resolveVariantSummary (args : Args) (remote : Remote) (st : DriverState) :
    Except ExitErr (String × DriverState) :=
  match args.clinvar_variant_summary_table with
  | some s =>
      if !(isfile st.fs s) then
        .error (.argError ("ClinVar variant summary table specified but not found: " ++ s))
      else if !(endswith s (".gz")) then
        .error (.argError ("ClinVar variant summary table expected to be gzipped: " ++ s))
      else .ok (s, st)
  | none =>
      .ok ("variant_summary.txt.gz",
        download_if_changed remote st ("variant_summary.txt.gz")
          ("ftp.ncbi.nlm.nih.gov") ("/pub/clinvar/tab_delimited/variant_summary.txt.gz"))

/-- What the driver hands over for execution on success: the parallel
download queue run by the first `jr.run()` (master.py:93), the console
log, and the main sequential job run by `jr.run(job)` (master.py:154). -/
structure DriverOutcome where
  downloads : List String
  console : List String
  job : Job

/-- The whole of master.py before any command executes, in source order:
module imports (14-19), executable asserts (20-21), input-file validation
(34-42), resolution of the two sources with conditional download
enqueueing (71-91), and construction of the main job (95-151).  An
`Except.error` result models the process exiting with that error before
any pipeline command (download or job step) is executed. -/
def driver (env : Env) (args : Args) (fs : FS) (remote : Remote) :
    Except ExitErr DriverOutcome :=
  match findMissingModule env with
  | some m => .error (.moduleNotInstalled m)
  | none =>
  match findMissingExecutable env with
  | some e => .error (.executableNotFound e)
  | none =>
  match checkInputFiles args fs with
  | some err => .error err
  | none =>
  match resolveClinvarXml args remote ⟨fs, [], []⟩ with
  | .error e => .error e
  | .ok (clinvar_xml, st1) =>
  match resolveVariantSummary args remote st1 with
  | .error e => .error e
  | .ok (variant_summary_table, st2) =>
      .ok ⟨st2.parallelQueue, st2.console,
        buildMainJob clinvar_xml variant_summary_table args⟩

/-- Claim C7: the freshness decision performs no local mutation.
`get_remote_file_changed_time` does not touch the filesystem at all (its
embedding neither receives nor returns an `FS`; the source only opens an
FTP connection and prints), and `download_if_changed` — which only reads
`isfile`/`getmtime`, appends to the parallel queue, and prints — returns a
state whose filesystem component is exactly the input one: no file is
created, modified, or deleted before the enqueued commands later run. -/
theorem download_if_changed_frame (remote : Remote) (st : DriverState)
    (local_path ftp_host ftp_path : String) :
    (download_if_changed remote st local_path ftp_host ftp_path).fs = st.fs :=
  download_if_changed_fs_eq remote st local_path ftp_host ftp_path

/-- Claim C9: every remote freshness query is bounded-wait:
`get_remote_file_changed_time` issues its query over the connection
`ftpConn ftp_host`, which is always opened with an explicit timeout of 3
seconds. -/
theorem remote_query_timeout_three (remote : Remote) (ftp_host ftp_path : String) :
    get_remote_file_changed_time remote ftp_host ftp_path
        = (ftpQuery remote (ftpConn ftp_host) ftp_path).getD 0 ∧
    (ftpConn ftp_host).timeoutSeconds = 3 := by
  constructor
  · unfold get_remote_file_changed_time
    cases ftpQuery remote (ftpConn ftp_host) ftp_path <;> rfl
  · rfl

theorem buildMainJob_eq (clinvar_xml variant_summary_table : String) (args : Args) :
    buildMainJob clinvar_xml variant_summary_table args
      = mainStepsCore clinvar_xml variant_summary_table args
        ++ (match args.exac_sites_vcf with
            | some e => exacSteps e args.reference_genome
            | none => [])
        ++ mainStepsTail := by
  cases h : args.exac_sites_vcf <;>
    simp [buildMainJob, jobAdd, mainStepsCore, exacSteps, mainStepsTail, h]

/-- Claim C8: the driver appends the main pipeline steps to the sequential
job in exactly this order: parse the ClinVar XML, fetch and run the
normalization script, join with the variant summary table, sort by genomic
coordinates, deduplicate and compress, index and copy the table, derive
and index the VCF (the eleven steps of `mainStepsCore`), then — only if
`-E` is given — the five ExAC-augmented-table steps, then the example
files and the statistics summary (`mainStepsTail`); appending via `jobAdd`
never reorders or removes a step. -/
theorem driver_job_step_order (clinvar_xml variant_summary_table : String) (args : Args) :
    buildMainJob clinvar_xml variant_summary_table args
      = mainStepsCore clinvar_xml variant_summary_table args
        ++ (match args.exac_sites_vcf with
            | some e => exacSteps e args.reference_genome
            | none => [])
        ++ mainStepsTail :=
  buildMainJob_eq clinvar_xml variant_summary_table args

/-- Claim C6: when `--exac-sites-vcf` is not provided, the sequential job
still unconditionally contains the example-file step reading
`clinvar_with_exac.tsv.gz` (at position 13), whose declared input is not
among the declared outputs of any earlier step of the job. -/
theorem exac_example_orphan_input (clinvar_xml variant_summary_table : String)
    (args : Args) (h : args.exac_sites_vcf = none) :
    (buildMainJob clinvar_xml variant_summary_table args)[13]? = some example_exac_step ∧
    "clinvar_with_exac.tsv.gz" ∈ example_exac_step.inputs ∧
    ∀ s ∈ (buildMainJob clinvar_xml variant_summary_table args).take 13,
      "clinvar_with_exac.tsv.gz" ∉ s.outputs := by
  have he := buildMainJob_eq clinvar_xml variant_summary_table args
  rw [h] at he
  refine ⟨?_, ?_, ?_⟩
  · rw [he]; rfl
  · simp [example_exac_step]
  · rw [he]
    intro s hs
    simp only [mainStepsCore, mainStepsTail, List.nil_append, List.append_assoc,
      List.cons_append, List.take, List.mem_cons, List.not_mem_nil, or_false] at hs
    rcases hs with rfl | rfl | rfl | rfl | rfl | rfl | rfl | rfl | rfl | rfl | rfl | rfl | rfl
      <;> simp [parse_clinvar_step, wget_normalize_step, normalize_step, join_step,
        sort_step, dedup_step, tabix_tsv_step, cp_tsv_step, vcf_step, tabix_vcf_step,
        cp_vcf_step, example_vcf_step, example_tsv_step]

/-- Witness for Claim C6 at a concrete configuration (no `-E` flag): the
orphan example step sits at index 13 and nothing earlier produces its
input. -/
theorem exac_example_orphan_input_witness :
    (buildMainJob ("ClinVarFullRelease_00-latest.xml.gz") ("variant_summary.txt.gz")
        ⟨"hg19.fa", "GRCh37", none, none, none⟩)[13]? = some example_exac_step ∧
    "clinvar_with_exac.tsv.gz" ∈ example_exac_step.inputs ∧
    ∀ s ∈ (buildMainJob ("ClinVarFullRelease_00-latest.xml.gz") ("variant_summary.txt.gz")
        ⟨"hg19.fa", "GRCh37", none, none, none⟩).take 13,
      "clinvar_with_exac.tsv.gz" ∉ s.outputs :=
  exac_example_orphan_input ("ClinVarFullRelease_00-latest.xml.gz")
    ("variant_summary.txt.gz") ⟨"hg19.fa", "GRCh37", none, none, none⟩ rfl


theorem checkInputFiles_none_valid (args : Args) (fs : FS)
    (h : checkInputFiles args fs = none) :
    isfile fs args.reference_genome = true ∧
    ∀ e, args.exac_sites_vcf = some e →
      isfile fs e = true ∧ isfile fs (e ++ ".tbi") = true := by
  cases h1 : isfile fs args.reference_genome with
  | false =>
      exfalso
      unfold checkInputFiles at h
      simp [h1] at h
  | true =>
      refine ⟨rfl, ?_⟩
      intro e he
      unfold checkInputFiles at h
      rw [he] at h
      cases h2 : isfile fs e with
      | false =>
          exfalso
          simp [h1, h2] at h
      | true =>
          cases h3 : isfile fs (e ++ ".tbi") with
          | false =>
              exfalso
              simp [h1, h2, h3] at h
          | true => exact ⟨rfl, rfl⟩

theorem checkInputFiles_some_argError (args : Args) (fs : FS) (err : ExitErr)
    (h : checkInputFiles args fs = some err) :
    ∃ msg, err = .argError msg := by
  unfold checkInputFiles at h
  cases h1 : isfile fs args.reference_genome with
  | false =>
      rw [h1] at h
      simp at h
      exact ⟨_, h.symm⟩
  | true =>
      rw [h1] at h
      simp only [Bool.not_true, Bool.false_eq_true, if_false] at h
      cases hx : args.exac_sites_vcf with
      | none =>
          rw [hx] at h
          exact absurd h (by simp)
      | some e =>
          rw [hx] at h
          dsimp only at h
          cases h2 : isfile fs e with
          | false =>
              rw [h2] at h
              simp at h
              exact ⟨_, h.symm⟩
          | true =>
              rw [h2] at h
              cases h3 : isfile fs (e ++ ".tbi") with
              | false =>
                  rw [h3] at h
                  simp at h
                  exact ⟨_, h.symm⟩
              | true =>
                  rw [h3] at h
                  exact absurd h (by simp)

theorem resolveClinvarXml_some_cases (args : Args) (remote : Remote) (st : DriverState)
    (x : String) (hx : args.clinvar_xml = some x) :
    resolveClinvarXml args remote st =
      if isfile st.fs x = false then
        .error (.argError ("ClinVar XML specified but not found: " ++ x))
      else if endswith x (".gz") = false then
        .error (.argError ("ClinVar XML expected to be gzipped: " ++ x))
      else .ok (x, st) := by
  unfold resolveClinvarXml
  rw [hx]
  cases h1 : isfile st.fs x <;> cases h2 : endswith x (".gz") <;> simp [h1, h2]

theorem resolveVariantSummary_some_cases (args : Args) (remote : Remote) (st : DriverState)
    (s : String) (hs : args.clinvar_variant_summary_table = some s) :
    resolveVariantSummary args remote st =
      if isfile st.fs s = false then
        .error (.argError ("ClinVar variant summary table specified but not found: " ++ s))
      else if endswith s (".gz") = false then
        .error (.argError ("ClinVar variant summary table expected to be gzipped: " ++ s))
      else .ok (s, st) := by
  unfold resolveVariantSummary
  rw [hs]
  cases h1 : isfile st.fs s <;> cases h2 : endswith s (".gz") <;> simp [h1, h2]

theorem resolveClinvarXml_some_valid (args : Args) (remote : Remote) (st : DriverState)
    (x : String) (hx : args.clinvar_xml = some x)
    (hf : isfile st.fs x = true) (hg : endswith x (".gz") = true) :
    resolveClinvarXml args remote st = .ok (x, st) := by
  rw [resolveClinvarXml_some_cases args remote st x hx, hf, hg]
  simp

theorem resolveVariantSummary_some_valid (args : Args) (remote : Remote) (st : DriverState)
    (s : String) (hs : args.clinvar_variant_summary_table = some s)
    (hf : isfile st.fs s = true) (hg : endswith s (".gz") = true) :
    resolveVariantSummary args remote st = .ok (s, st) := by
  rw [resolveVariantSummary_some_cases args remote st s hs, hf, hg]
  simp

theorem resolveClinvarXml_ok_some (args : Args) (remote : Remote) (st : DriverState)
    (x y : String) (st' : DriverState) (hx : args.clinvar_xml = some x)
    (hok : resolveClinvarXml args remote st = .ok (y, st')) :
    isfile st.fs x = true ∧ endswith x (".gz") = true ∧ y = x ∧ st' = st := by
  rw [resolveClinvarXml_some_cases args remote st x hx] at hok
  cases h1 : isfile st.fs x with
  | false =>
      rw [h1] at hok
      simp at hok
  | true =>
      rw [h1] at hok
      cases h2 : endswith x (".gz") with
      | false =>
          rw [h2] at hok
          simp at hok
      | true =>
          rw [h2] at hok
          simp only [Bool.true_eq_false, if_false, Except.ok.injEq, Prod.mk.injEq] at hok
          exact ⟨rfl, rfl, hok.1.symm, hok.2.symm⟩

theorem resolveVariantSummary_ok_some (args : Args) (remote : Remote) (st : DriverState)
    (s y : String) (st' : DriverState) (hs : args.clinvar_variant_summary_table = some s)
    (hok : resolveVariantSummary args remote st = .ok (y, st')) :
    isfile st.fs s = true ∧ endswith s (".gz") = true ∧ y = s ∧ st' = st := by
  rw [resolveVariantSummary_some_cases args remote st s hs] at hok
  cases h1 : isfile st.fs s with
  | false =>
      rw [h1] at hok
      simp at hok
  | true =>
      rw [h1] at hok
      cases h2 : endswith s (".gz") with
      | false =>
          rw [h2] at hok
          simp at hok
      | true =>
          rw [h2] at hok
          simp only [Bool.true_eq_false, if_false, Except.ok.injEq, Prod.mk.injEq] at hok
          exact ⟨rfl, rfl, hok.1.symm, hok.2.symm⟩

theorem resolveClinvarXml_error_argError (args : Args) (remote : Remote)
    (st : DriverState) (err : ExitErr)
    (h : resolveClinvarXml args remote st = .error err) :
    ∃ msg, err = .argError msg := by
  cases hx : args.clinvar_xml with
  | none =>
      unfold resolveClinvarXml at h
      rw [hx] at h
      exact absurd h (by simp)
  | some x =>
      rw [resolveClinvarXml_some_cases args remote st x hx] at h
      cases h1 : isfile st.fs x with
      | false =>
          rw [h1] at h
          simp at h
          exact ⟨_, h.symm⟩
      | true =>
          rw [h1] at h
          cases h2 : endswith x (".gz") with
          | false =>
              rw [h2] at h
              simp at h
              exact ⟨_, h.symm⟩
          | true =>
              rw [h2] at h
              simp at h

theorem resolveVariantSummary_error_argError (args : Args) (remote : Remote)
    (st : DriverState) (err : ExitErr)
    (h : resolveVariantSummary args remote st = .error err) :
    ∃ msg, err = .argError msg := by
  cases hs : args.clinvar_variant_summary_table with
  | none =>
      unfold resolveVariantSummary at h
      rw [hs] at h
      exact absurd h (by simp)
  | some s =>
      rw [resolveVariantSummary_some_cases args remote st s hs] at h
      cases h1 : isfile st.fs s with
      | false =>
          rw [h1] at h
          simp at h
          exact ⟨_, h.symm⟩
      | true =>
          rw [h1] at h
          cases h2 : endswith s (".gz") with
          | false =>
              rw [h2] at h
              simp at h
              exact ⟨_, h.symm⟩
          | true =>
              rw [h2] at h
              simp at h

theorem resolveClinvarXml_fs (args : Args) (remote : Remote) (st : DriverState)
    (y : String) (st' : DriverState)
    (hok : resolveClinvarXml args remote st = .ok (y, st')) :
    st'.fs = st.fs := by
  cases hx : args.clinvar_xml with
  | some x =>
      obtain ⟨-, -, -, rfl⟩ := resolveClinvarXml_ok_some args remote st x y st' hx hok
      rfl
  | none =>
      unfold resolveClinvarXml at hok
      rw [hx] at hok
      simp only [Except.ok.injEq, Prod.mk.injEq] at hok
      rw [← hok.2]
      exact download_if_changed_fs_eq _ _ _ _ _

theorem driver_ok_inputs_valid (env : Env) (args : Args) (fs : FS) (remote : Remote)
    (out : DriverOutcome) (hok : driver env args fs remote = .ok out) :
    isfile fs args.reference_genome = true ∧
    (∀ e, args.exac_sites_vcf = some e →
      isfile fs e = true ∧ isfile fs (e ++ ".tbi") = true) ∧
    (∀ x, args.clinvar_xml = some x →
      isfile fs x = true ∧ endswith x (".gz") = true) ∧
    (∀ s, args.clinvar_variant_summary_table = some s →
      isfile fs s = true ∧ endswith s (".gz") = true) := by
  unfold driver at hok
  cases hM : findMissingModule env with
  | some m => rw [hM] at hok; exact Except.noConfusion hok
  | none =>
  rw [hM] at hok
  cases hE : findMissingExecutable env with
  | some e => rw [hE] at hok; exact Except.noConfusion hok
  | none =>
  rw [hE] at hok
  cases hC : checkInputFiles args fs with
  | some err => rw [hC] at hok; exact Except.noConfusion hok
  | none =>
  rw [hC] at hok
  cases hX : resolveClinvarXml args remote ⟨fs, [], []⟩ with
  | error e => rw [hX] at hok; exact Except.noConfusion hok
  | ok p =>
  rw [hX] at hok
  obtain ⟨cx, st1⟩ := p
  dsimp only at hok
  cases hS : resolveVariantSummary args remote st1 with
  | error e => rw [hS] at hok; exact Except.noConfusion hok
  | ok q =>
  rw [hS] at hok
  obtain ⟨vs, st2⟩ := q
  obtain ⟨h1, h2⟩ := checkInputFiles_none_valid args fs hC
  refine ⟨h1, h2, ?_, ?_⟩
  · intro x hx
    obtain ⟨hf, hg, -, -⟩ := resolveClinvarXml_ok_some args remote ⟨fs, [], []⟩ x cx st1 hx hX
    exact ⟨hf, hg⟩
  · intro s hs
    obtain ⟨hf, hg, -, -⟩ := resolveVariantSummary_ok_some args remote st1 s vs st2 hs hS
    have hfs1 : st1.fs = fs := resolveClinvarXml_fs args remote ⟨fs, [], []⟩ cx st1 hX
    rw [hfs1] at hf
    exact ⟨hf, hg⟩

theorem driver_error_argError (env : Env) (args : Args) (fs : FS) (remote : Remote)
    (err : ExitErr)
    (hM : findMissingModule env = none) (hE : findMissingExecutable env = none)
    (herr : driver env args fs remote = .error err) :
    ∃ msg, err = .argError msg := by
  unfold driver at herr
  rw [hM, hE] at herr
  cases hC : checkInputFiles args fs with
  | some err0 =>
      rw [hC] at herr
      injection herr with h
      subst h
      exact checkInputFiles_some_argError args fs err0 hC
  | none =>
  rw [hC] at herr
  cases hX : resolveClinvarXml args remote ⟨fs, [], []⟩ with
  | error e =>
      rw [hX] at herr
      injection herr with h
      subst h
      exact resolveClinvarXml_error_argError args remote ⟨fs, [], []⟩ e hX
  | ok p =>
  rw [hX] at herr
  obtain ⟨cx, st1⟩ := p
  dsimp only at herr
  cases hS : resolveVariantSummary args remote st1 with
  | error e =>
      rw [hS] at herr
      injection herr with h
      subst h
      exact resolveVariantSummary_error_argError args remote st1 e hS
  | ok q =>
      rw [hS] at herr
      obtain ⟨vs, st2⟩ := q
      exact Except.noConfusion herr

/-- Claim C3: for every configuration in which a supplied input file is
invalid — the reference genome missing, the `-E` ExAC sites vcf or its
companion `.tbi` index missing, or a supplied `-X`/`-S` file missing or
not ending in `.gz` — the driver stops with a descriptive `p.error`
(argparse exit status 2, non-zero) and returns no outcome, so no pipeline
command is ever handed over for execution. -/
theorem invalid_input_fails_fast (env : Env) (args : Args) (fs : FS) (remote : Remote)
    (hM : findMissingModule env = none) (hE : findMissingExecutable env = none)
    (hbad :
      isfile fs args.reference_genome = false ∨
      (∃ e, args.exac_sites_vcf = some e ∧
        (isfile fs e = false ∨ isfile fs (e ++ ".tbi") = false)) ∨
      (∃ x, args.clinvar_xml = some x ∧
        (isfile fs x = false ∨ endswith x (".gz") = false)) ∨
      (∃ s, args.clinvar_variant_summary_table = some s ∧
        (isfile fs s = false ∨ endswith s (".gz") = false))) :
    ∃ msg, driver env args fs remote = .error (.argError msg) ∧
      (ExitErr.argError msg).code ≠ 0 := by
  cases hres : driver env args fs remote with
  | ok out =>
      exfalso
      obtain ⟨h1, h2, h3, h4⟩ := driver_ok_inputs_valid env args fs remote out hres
      rcases hbad with hb | ⟨e, he, hb⟩ | ⟨x, hx, hb⟩ | ⟨s, hs, hb⟩
      · rw [h1] at hb; exact Bool.noConfusion hb
      · obtain ⟨hf, hg⟩ := h2 e he
        rcases hb with hb | hb
        · rw [hf] at hb; exact Bool.noConfusion hb
        · rw [hg] at hb; exact Bool.noConfusion hb
      · obtain ⟨hf, hg⟩ := h3 x hx
        rcases hb with hb | hb
        · rw [hf] at hb; exact Bool.noConfusion hb
        · rw [hg] at hb; exact Bool.noConfusion hb
      · obtain ⟨hf, hg⟩ := h4 s hs
        rcases hb with hb | hb
        · rw [hf] at hb; exact Bool.noConfusion hb
        · rw [hg] at hb; exact Bool.noConfusion hb
  | error err =>
      obtain ⟨msg, rfl⟩ := driver_error_argError env args fs remote err hM hE hres
      exact ⟨msg, rfl, by simp [ExitErr.code]⟩

/-- Environment for witnesses: every module importable, every executable
found. -/
def fullEnv : Env := ⟨fun _ => true, fun _ => true⟩

/-- Witness for Claim C3 at a concrete input: with everything else fine
but the reference genome file absent, the driver exits with `p.error`
(status 2). -/
theorem invalid_input_fails_fast_witness :
    ∃ msg, driver fullEnv ⟨"hg19.fa", "GRCh37", none, none, none⟩ emptyFS failRemote
        = .error (.argError msg) ∧ (ExitErr.argError msg).code ≠ 0 :=
  invalid_input_fails_fast fullEnv ⟨"hg19.fa", "GRCh37", none, none, none⟩ emptyFS failRemote
    rfl rfl (Or.inl rfl)

/-- Claim C4: for every environment in which one of the external tools
wget, Rscript, tabix, vt is not findable on the path, or one of the
required Python modules (pypez, pysam, pandas) is not importable, the
driver stops with the corresponding module/executable error (exit status
1, non-zero) and returns no outcome, before any pipeline work begins. -/
theorem missing_tool_fails_fast (env : Env) (args : Args) (fs : FS) (remote : Remote)
    (h : (∃ m ∈ python_modules, env.importable m = false) ∨
         (∃ e ∈ required_executables, env.findExecutable e = false)) :
    ∃ err, driver env args fs remote = .error err ∧ err.code ≠ 0 ∧
      ((∃ m, err = .moduleNotInstalled m) ∨ (∃ e, err = .executableNotFound e)) := by
  cases hM : findMissingModule env with
  | some m =>
      refine ⟨.moduleNotInstalled m, ?_, by simp [ExitErr.code], Or.inl ⟨m, rfl⟩⟩
      unfold driver
      rw [hM]
  | none =>
      have hMod : ∀ m ∈ python_modules, env.importable m = true := by
        intro m hm
        have := List.find?_eq_none.mp hM m hm
        simpa using this
      cases hE : findMissingExecutable env with
      | some e =>
          refine ⟨.executableNotFound e, ?_, by simp [ExitErr.code], Or.inr ⟨e, rfl⟩⟩
          unfold driver
          rw [hM, hE]
      | none =>
          exfalso
          have hExe : ∀ e ∈ required_executables, env.findExecutable e = true := by
            intro e hein
            have := List.find?_eq_none.mp hE e hein
            simpa using this
          rcases h with ⟨m, hm, hmf⟩ | ⟨e, hein, hef⟩
          · rw [hMod m hm] at hmf; exact Bool.noConfusion hmf
          · rw [hExe e hein] at hef; exact Bool.noConfusion hef

/-- Environment for the C4 witness: `vt` is missing from the path. -/
def noVtEnv : Env := ⟨fun _ => true, fun e => !(e == "vt")⟩

/-- Witness for Claim C4 at a concrete input: with `vt` absent the driver
exits with an executable-not-found error before any work. -/
theorem missing_tool_fails_fast_witness :
    ∃ err, driver noVtEnv ⟨"hg19.fa", "GRCh37", none, none, none⟩ emptyFS failRemote
        = .error err ∧ err.code ≠ 0 ∧
      ((∃ m, err = .moduleNotInstalled m) ∨ (∃ e, err = .executableNotFound e)) :=
  missing_tool_fails_fast noVtEnv ⟨"hg19.fa", "GRCh37", none, none, none⟩ emptyFS failRemote
    (Or.inr ⟨"vt", by decide, rfl⟩)

/-- Claim C10: when both `--clinvar-xml` and
`--clinvar-variant-summary-table` are supplied as existing `.gz` files,
the driver's behavior is independent of the remote FTP state:
`download_if_changed` is never reached, so the driver result is identical
for any two remote states, and whenever the driver succeeds the parallel
download queue handed to the first job-runner run is empty. -/
theorem supplied_sources_remote_independent (env : Env) (args : Args) (fs : FS)
    (r1 r2 : Remote) (x s : String)
    (hx : args.clinvar_xml = some x) (hs : args.clinvar_variant_summary_table = some s)
    (hfx : isfile fs x = true) (hgx : endswith x (".gz") = true)
    (hfs : isfile fs s = true) (hgs : endswith s (".gz") = true) :
    driver env args fs r1 = driver env args fs r2 ∧
    ∀ out, driver env args fs r1 = .ok out → out.downloads = [] := by
  have hresolve : ∀ r : Remote, driver env args fs r =
      (match findMissingModule env with
       | some m => .error (.moduleNotInstalled m)
       | none =>
       match findMissingExecutable env with
       | some e => .error (.executableNotFound e)
       | none =>
       match checkInputFiles args fs with
       | some err => .error err
       | none => .ok ⟨[], [], buildMainJob x s args⟩) := by
    intro r
    unfold driver
    rw [resolveClinvarXml_some_valid args r ⟨fs, [], []⟩ x hx hfx hgx]
    dsimp only
    rw [resolveVariantSummary_some_valid args r ⟨fs, [], []⟩ s hs hfs hgs]
  refine ⟨by rw [hresolve r1, hresolve r2], ?_⟩
  intro out hout
  rw [hresolve r1] at hout
  cases hM : findMissingModule env with
  | some m => rw [hM] at hout; exact Except.noConfusion hout
  | none =>
  rw [hM] at hout
  cases hE : findMissingExecutable env with
  | some e => rw [hE] at hout; exact Except.noConfusion hout
  | none =>
  rw [hE] at hout
  cases hC : checkInputFiles args fs with
  | some err => rw [hC] at hout; exact Except.noConfusion hout
  | none =>
  rw [hC] at hout
  injection hout with h
  rw [← h]

/-- Filesystem for the C10 witness: the two supplied `.gz` sources exist. -/
def suppliedFS : FS := fun p =>
  if p = "my_clinvar.xml.gz" then some 10
  else if p = "my_summary.txt.gz" then some 20
  else if p = "hg19.fa" then some 30
  else none

/-- Witness for Claim C10 at concrete inputs: with both sources supplied
as existing `.gz` files, two maximally different remote states (all
queries succeed vs all fail) give the same driver result, and its download
queue is empty. -/
theorem supplied_sources_remote_independent_witness :
    driver fullEnv
        ⟨"hg19.fa", "GRCh37", none, some "my_clinvar.xml.gz", some "my_summary.txt.gz"⟩
        suppliedFS t100Remote
      = driver fullEnv
        ⟨"hg19.fa", "GRCh37", none, some "my_clinvar.xml.gz", some "my_summary.txt.gz"⟩
        suppliedFS failRemote ∧
    ∀ out, driver fullEnv
        ⟨"hg19.fa", "GRCh37", none, some "my_clinvar.xml.gz", some "my_summary.txt.gz"⟩
        suppliedFS t100Remote = .ok out → out.downloads = [] :=
  supplied_sources_remote_independent fullEnv
    ⟨"hg19.fa", "GRCh37", none, some "my_clinvar.xml.gz", some "my_summary.txt.gz"⟩
    suppliedFS t100Remote failRemote "my_clinvar.xml.gz" "my_summary.txt.gz"
    rfl rfl (by decide) (by decide) (by decide) (by decide)

/-- Modelled from the spec: the pypez Job Runner's up-to-dateness test
(the pypez library itself is not under src/; only its call sites are).
Per the spec's sequential mode, a command descriptor is satisfied when
"every declared output exists and is at least as new as every declared
input". -/
def command_up_to_date (fs : FS) (s : Step) : Bool :=
  s.outputs.all (fun o => isfile fs o) &&
  s.outputs.all (fun o => s.inputs.all (fun i => decide (getmtime fs i <= getmtime fs o)))

/-- Modelled from the spec: executing one sequential step spawns its
external command exactly once unless the step is up to date, in which
case no process is spawned; the result is the list of spawned commands. -/
def run_sequential_step (fs : FS) (s : Step) : List String :=
  if command_up_to_date fs s then [] else [s.cmd]

/-- Modelled from the spec: sequential mode executes descriptors strictly
in append order, continuing to the next step after a skip; the result is
the concatenation of each step's spawned commands. -/
def run_sequential_job (fs : FS) (j : Job) : List String :=
  (j.map (run_sequential_step fs)).flatten

theorem command_up_to_date_iff (fs : FS) (s : Step) :
    command_up_to_date fs s = true ↔
      ((∀ o ∈ s.outputs, isfile fs o = true) ∧
       ∀ o ∈ s.outputs, ∀ i ∈ s.inputs, getmtime fs i ≤ getmtime fs o) := by
  simp [command_up_to_date, List.all_eq_true, decide_eq_true_eq]

/-- Claim C5 (spec-modelled, pypez is not under src/): a sequential step
whose declared outputs all exist and are at least as new as all declared
inputs is skipped (no process spawned), otherwise its command is executed
exactly once; and within a job each step contributes exactly its own
spawn list, after which execution continues with the next step. -/
theorem job_runner_skip_iff (fs : FS) (s : Step) (j1 j2 : Job) :
    (run_sequential_step fs s = [] ↔
      ((∀ o ∈ s.outputs, isfile fs o = true) ∧
       ∀ o ∈ s.outputs, ∀ i ∈ s.inputs, getmtime fs i ≤ getmtime fs o)) ∧
    (¬ ((∀ o ∈ s.outputs, isfile fs o = true) ∧
        ∀ o ∈ s.outputs, ∀ i ∈ s.inputs, getmtime fs i ≤ getmtime fs o) →
      run_sequential_step fs s = [s.cmd]) ∧
    run_sequential_job fs (j1 ++ s :: j2)
      = run_sequential_job fs j1 ++ run_sequential_step fs s ++ run_sequential_job fs j2 := by
  refine ⟨?_, ?_, ?_⟩
  · rw [← command_up_to_date_iff]
    unfold run_sequential_step
    by_cases h : command_up_to_date fs s = true
    · simp [h]
    · simp [h]
  · intro h
    rw [← command_up_to_date_iff] at h
    simp [run_sequential_step, h]
  · simp [run_sequential_job]

/-- Filesystem for the C5 witness: `in1` is older than `out1`; no other
file exists. -/
def runnerFS : FS := fun p =>
  if p = "in1" then some 10 else if p = "out1" then some 20 else none

/-- A step whose output exists and is newer than its input. -/
def freshStep : Step := { cmd := "cmd1", inputs := ["in1"], outputs := ["out1"] }

/-- A step whose declared output is missing. -/
def staleStep : Step := { cmd := "cmd2", inputs := ["in1"], outputs := ["gone"] }

/-- Witness for Claim C5 at concrete inputs: the up-to-date step is
skipped, the step with a missing output is executed exactly once. -/
theorem job_runner_skip_iff_witness :
    run_sequential_step runnerFS freshStep = [] ∧
    run_sequential_step runnerFS staleStep = ["cmd2"] :=
  ⟨(job_runner_skip_iff runnerFS freshStep [] []).1.mpr (by decide),
   (job_runner_skip_iff runnerFS staleStep [] []).2.1 (by decide)⟩

end ClinvarMaster
